import Mathlib

/-
Verification development for the Bright Futures FastAPI server (src/app.py).

The embedding is shallow: Python values appearing in the program are mapped to
Lean values, the pydantic model `DonatePayload` to a validation function on a
parsed JSON body, the route handlers to functions from a file-system model to
responses, and the Starlette dispatch (routing, the registered 404 exception
handler, the HTTP-middleware stack) to an explicit pipeline.

Modelling conventions:
  - Python floats are modelled as `PyFloat`: an exact rational, or one of the
    special values nan / +inf / -inf.  The program never performs float
    arithmetic; it only compares (`v <= 0`) and echoes the value, so the
    rational carrier is exact for every finite input.
  - The disk is a list of the relative paths (under ROOT) that exist.
  - `datetime.utcnow()` is modelled as a caller-supplied civil datetime; the
    handler reads the clock twice, so the model takes two readings.
    `datetime.timestamp()` on a naive datetime interprets it in the process
    local timezone; the model assumes that timezone is UTC.
-/

namespace BrightFutures

/-- Model of a Python float value: exact rational, or nan / +inf / -inf.
No arithmetic is done on floats in app.py, only comparison and echoing,
so this carrier is exact. -/
inductive PyFloat where
  | finite (q : ℚ)
  | nan
  | inf
  | ninf
deriving DecidableEq, Repr

/-- IEEE-754 `<=` as used by Python for `v <= 0` (app.py line 44):
nan compares false with everything; -inf is below and +inf above all. -/
def pyLe : PyFloat → PyFloat → Bool
  | .nan, _ => false
  | _, .nan => false
  | .ninf, _ => true
  | _, .ninf => false
  | _, .inf => true
  | .inf, _ => false
  | .finite a, .finite b => decide (a ≤ b)

/-- Whether a float is finite; `json.dumps(..., allow_nan=False)` (used by
Starlette JSONResponse.render) accepts exactly the finite floats. -/
def PyFloat.isFinite : PyFloat → Bool
  | .finite _ => true
  | _ => false

/-- Model of a JSON value as produced by parsing the request body: Python's
json.loads keeps integers and floats distinct. -/
inductive JVal where
  | vint (z : ℤ)
  | vfloat (x : PyFloat)
  | vstr (s : String)
  | vbool (b : Bool)
  | vnull
deriving DecidableEq, Repr

/-- The three keys of the donate request body that DonatePayload reads
(app.py lines 37-40); pydantic ignores extra keys by default, so only these
are modelled.  `none` means the key is absent. -/
structure DonateBody where
  amount : Option JVal
  name : Option JVal
  message : Option JVal
deriving DecidableEq, Repr

/-- Value of a digit string, most significant first. -/
def natOfDigits (l : List Char) : ℕ :=
  l.foldl (fun a c => a * 10 + (c.toNat - 48)) 0

/-- Unsigned decimal numeral, optionally with a fractional part ("5", "5.",
".5", "20.5").  Subset of Python's float literal syntax: exponents,
underscores, whitespace and the inf / nan spellings are not modelled; no
claim depends on them. -/
def parseUnsigned (cs : List Char) : Option ℚ :=
  let ds := cs.takeWhile Char.isDigit
  let rest := cs.dropWhile Char.isDigit
  match rest with
  | [] => if ds.isEmpty then none else some ((natOfDigits ds : ℚ))
  | '.' :: fs =>
      if fs.all Char.isDigit && (!ds.isEmpty || !fs.isEmpty) then
        some ((natOfDigits ds : ℚ) + (natOfDigits fs : ℚ) / ((10 : ℚ) ^ fs.length))
      else none
  | _ => none

/-- Model of Python's `float(s)` on a string (the coercion pydantic applies
to a string-valued `amount`), for the numeral subset described above. -/
def parsePyFloat (s : String) : Option PyFloat :=
  match s.data with
  | '+' :: t => (parseUnsigned t).map (fun q => PyFloat.finite q)
  | '-' :: t => (parseUnsigned t).map (fun q => PyFloat.finite (-q))
  | t => (parseUnsigned t).map (fun q => PyFloat.finite q)

/-- The fields of DonatePayload, in declaration order (app.py lines 38-40). -/
inductive FieldId where
  | amount
  | name
  | message
deriving DecidableEq, Repr

/-- The kinds of per-field validation errors pydantic can report for this
model.  Messages other than the one raised by `amount_must_be_positive`
differ in wording across pydantic versions, so only that one is carried
verbatim. -/
inductive ErrKind where
  | missing
  | notAFloat
  | noneNotAllowed
  | valueError (msg : String)
  | tooLong (limit : ℕ)
  | notAStr
deriving DecidableEq, Repr

/-- A validation error: which field, and what went wrong. -/
structure ValErr where
  field : FieldId
  kind : ErrKind
deriving DecidableEq, Repr

/-- Pydantic's coercion of a JSON value to `float` (field type of `amount`,
app.py line 38): floats pass through, ints and bools are widened, strings go
through `float(s)`, null is rejected for the required field. -/
def coerceFloat : JVal → Except ErrKind PyFloat
  | .vfloat x => .ok x
  | .vint z => .ok (.finite (z : ℚ))
  | .vbool b => .ok (.finite (if b then 1 else 0))
  | .vstr s =>
      match parsePyFloat s with
      | some x => .ok x
      | none => .error .notAFloat
  | .vnull => .error .noneNotAllowed

/-- Validation of the `amount` field: required, coerced to float, then the
custom validator `amount_must_be_positive` (app.py lines 42-46) rejects
`v <= 0` with the message "amount must be greater than zero".  The validator
is skipped when coercion already failed, matching pydantic. -/
def validateAmount : Option JVal → Except ValErr PyFloat
  | none => .error ⟨.amount, .missing⟩
  | some v =>
      match coerceFloat v with
      | .error k => .error ⟨.amount, k⟩
      | .ok f =>
          if pyLe f (.finite 0) then
            .error ⟨.amount, .valueError "amount must be greater than zero"⟩
          else .ok f

/-- Validation of an optional bounded string field (`name` / `message`,
app.py lines 39-40): absent or null yields none; a string is length-checked
against `max_length`.  Coercion of non-string scalars to str differs across
pydantic versions and no claim depends on it, so it is reported as an
error kind of its own. -/
def validateStr (f : FieldId) (limit : ℕ) : Option JVal → Except ValErr (Option String)
  | none => .ok none
  | some .vnull => .ok none
  | some (.vstr s) =>
      if s.length ≤ limit then .ok (some s) else .error ⟨f, .tooLong limit⟩
  | some _ => .error ⟨f, .notAStr⟩

/-- The validated payload (the `DonatePayload` instance the handler sees). -/
structure DonatePayload where
  amount : PyFloat
  name : Option String
  message : Option String
deriving DecidableEq, Repr

/-- Errors contributed by one field's result. -/
def errsOf {α : Type} : Except ValErr α → List ValErr
  | .error e => [e]
  | .ok _ => []

/-- Whole-model validation as pydantic performs it for `DonatePayload`:
each field is validated independently in declaration order and ALL field
errors are collected into the error list (pydantic does not stop at the
first failing field). -/
def validateDonate (b : DonateBody) : Except (List ValErr) DonatePayload :=
  match validateAmount b.amount, validateStr .name 200 b.name,
      validateStr .message 500 b.message with
  | .ok a, .ok n, .ok m => .ok ⟨a, n, m⟩
  | ea, en, em => .error (errsOf ea ++ errsOf en ++ errsOf em)

/-- A civil (naive) datetime as returned by `datetime.utcnow()`:
year-month-day hour:minute:second.micro. -/
structure DateTime where
  year : ℕ
  month : ℕ
  day : ℕ
  hour : ℕ
  minute : ℕ
  second : ℕ
  micro : ℕ
deriving DecidableEq, Repr

/-- Proleptic-Gregorian leap-year test (Python `calendar.isleap`). -/
def isLeap (y : ℕ) : Bool :=
  y % 4 == 0 && (y % 100 != 0 || y % 400 == 0)

/-- Days in the years strictly before year `y` (y ≥ 1), as in Python's
`datetime._days_before_year`. -/
def daysBeforeYear (y : ℕ) : ℕ :=
  let p := y - 1
  p * 365 + p / 4 - p / 100 + p / 400

/-- Length of month `m` (1-12) of year `y`. -/
def daysInMonth (y m : ℕ) : ℕ :=
  if m == 2 then (if isLeap y then 29 else 28)
  else if m == 4 || m == 6 || m == 9 || m == 11 then 30
  else 31

/-- Days in the months of year `y` strictly before month `m`. -/
def daysBeforeMonth (y m : ℕ) : ℕ :=
  (List.range (m - 1)).foldl (fun a i => a + daysInMonth y (i + 1)) 0

/-- Python `datetime.toordinal()`: day count with 0001-01-01 as day 1. -/
def toordinal (d : DateTime) : ℕ :=
  daysBeforeYear d.year + daysBeforeMonth d.year d.month + d.day

/-- Microseconds between the datetime (read as UTC) and the Unix epoch;
1970-01-01 has ordinal 719163. -/
def epochMicros (d : DateTime) : ℤ :=
  (((toordinal d : ℤ) - 719163) * 86400
      + (d.hour : ℤ) * 3600 + (d.minute : ℤ) * 60 + (d.second : ℤ)) * 1000000
    + (d.micro : ℤ)

/-- Model of `int(datetime.utcnow().timestamp())` (app.py line 75) for a
given clock reading: `int()` truncates toward zero, which `Int.tdiv` does.
Assumes the process-local timezone is UTC (naive `timestamp()` interprets
the datetime in local time).  The float result of `timestamp()` is exact in
double precision for all realistic dates. -/
def pyIntTimestamp (d : DateTime) : ℤ :=
  Int.tdiv (epochMicros d) 1000000

/-- `toString n` left-padded with zeros to width `w`. -/
def padNum (w n : ℕ) : String :=
  let s := toString n
  String.mk (List.replicate (w - s.length) '0') ++ s

/-- Model of `datetime.isoformat()` on a naive datetime (app.py line 83):
YYYY-MM-DDTHH:MM:SS, with a .ffffff part exactly when microsecond ≠ 0. -/
def pyIsoformat (d : DateTime) : String :=
  padNum 4 d.year ++ "-" ++ padNum 2 d.month ++ "-" ++ padNum 2 d.day ++ "T"
    ++ padNum 2 d.hour ++ ":" ++ padNum 2 d.minute ++ ":" ++ padNum 2 d.second
    ++ (if d.micro == 0 then "" else "." ++ padNum 6 d.micro)

/-- Python's `x or d` on an optional string: `None` and the empty string are
falsy, so both fall to the default (app.py lines 80 and 82). -/
def pyOrStr (x : Option String) (d : String) : String :=
  match x with
  | none => d
  | some s => if s == "" then d else s

/-- The JSON receipt object built by the donate handler (app.py lines 76-85). -/
structure Receipt where
  status : String
  receipt_id : String
  name : String
  amount : PyFloat
  message : String
  timestamp : String
deriving DecidableEq, Repr

/-- The receipt construction of app.py lines 75-84.  The handler calls
`datetime.utcnow()` twice — once for the receipt id (line 75) and once for
the timestamp (line 83) — so the model takes the two readings separately,
in program order. -/
def makeReceipt (p : DonatePayload) (now1 now2 : DateTime) : Receipt :=
  { status := "ok"
    receipt_id := "BF-" ++ toString (pyIntTimestamp now1)
    name := pyOrStr p.name "Anonymous"
    amount := p.amount
    message := pyOrStr p.message ""
    timestamp := pyIsoformat now2 ++ "Z" }

/-- The body of an HTTP response, kept structured rather than serialized:
a file served from disk (FileResponse), a JSON object of the shape
given by the constructor (detail object, receipt, 422 error list), or
plain text (the ServerErrorMiddleware's fixed 500 page). -/
inductive RespBody where
  | fileOf (path : String)
  | detailJson (detail : String)
  | receiptJson (r : Receipt)
  | validationJson (errs : List ValErr)
  | plainText (s : String)
deriving DecidableEq, Repr

/-- An HTTP response: status code, headers (only the ones this program
touches are tracked), body, and media type. -/
structure Response where
  status : ℕ
  headers : List (String × String)
  body : RespBody
  media : Option String
deriving DecidableEq, Repr

/-- An incoming HTTP request.  The body is the parsed donate payload object;
it is only consulted by the `POST /donate` route. -/
structure Request where
  method : String
  path : String
  body : DonateBody
deriving DecidableEq, Repr

/-- What a route produces before Starlette's exception handling runs:
a response, a raised HTTPException (status + detail), or an exception that
no handler catches (the JSONResponse serialization ValueError). -/
inductive HandlerOut where
  | resp (r : Response)
  | exc (status : ℕ) (detail : String)
  | crash
deriving DecidableEq, Repr

/-- The `GET /` handler (app.py lines 49-56): serve index.html, or raise
HTTPException(500, "index.html not found on server") when it is missing. -/
def index (fs : List String) : HandlerOut :=
  if fs.contains "index.html" then
    .resp ⟨200, [], .fileOf "index.html", some "text/html"⟩
  else .exc 500 "index.html not found on server"

/-- The `GET /favicon.ico` handler (app.py lines 59-64): serve the icon if
present, otherwise raise HTTPException(404) (whose default detail is the
status phrase "Not Found"). -/
def favicon (fs : List String) : HandlerOut :=
  if fs.contains "favicon.ico" then
    .resp ⟨200, [], .fileOf "favicon.ico", some "image/x-icon"⟩
  else .exc 404 "Not Found"

/-- The `POST /donate` route (app.py lines 67-85).  FastAPI validates the
body into DonatePayload before the handler runs; a pydantic failure becomes
a 422 response listing the field errors.  On success the handler builds the
receipt and returns it as a JSONResponse; Starlette's JSONResponse.render
uses json.dumps with allow_nan=False, so a non-finite amount raises an
uncaught ValueError instead of producing a response. -/
def donate (b : DonateBody) (now1 now2 : DateTime) : HandlerOut :=
  match validateDonate b with
  | .error es => .resp ⟨422, [], .validationJson es, some "application/json"⟩
  | .ok p =>
      let r := makeReceipt p now1 now2
      if r.amount.isFinite then
        .resp ⟨200, [], .receiptJson r, some "application/json"⟩
      else .crash

/-- Python `path.lstrip("/")`: drop every leading slash. -/
def lstripSlash (s : String) : String :=
  String.mk (s.data.dropWhile (· == '/'))

/-- The registered 404 exception handler (app.py lines 89-100): strip the
leading slashes from the request path, and if that relative path exists
under ROOT answer a genuine 404 JSON; otherwise serve the SPA index shell,
or a 500 JSON when even the shell is missing. -/
def spa_fallback (fs : List String) (path : String) : Response :=
  let p := lstripSlash path
  if fs.contains p then
    ⟨404, [], .detailJson "Not Found", some "application/json"⟩
  else if fs.contains "index.html" then
    ⟨200, [], .fileOf "index.html", some "text/html"⟩
  else
    ⟨500, [], .detailJson "index.html not found", some "application/json"⟩

/-- Starlette routing plus exception handling.  Routing: the three declared
routes match method and path exactly; a known path with the wrong method
raises HTTPException(405); anything else raises HTTPException(404).
Exception handling: the app registers `@app.exception_handler(404)`, and in
Starlette a status-keyed handler catches EVERY HTTPException with that
status — the router's own not-found AND the 404 raised inside the favicon
handler — routing them all through `spa_fallback`.  Any other HTTPException
goes to FastAPI's default handler, a JSON detail object with the raised
status.  A crash (uncaught exception) escapes to ServerErrorMiddleware. -/
def routeHandler (fs : List String) (now1 now2 : DateTime) (req : Request) :
    HandlerOut :=
  match req.method, req.path with
  | "GET", "/" => index fs
  | "GET", "/favicon.ico" => favicon fs
  | "POST", "/donate" => donate req.body now1 now2
  | _, p =>
      if p == "/" || p == "/favicon.ico" || p == "/donate" then
        .exc 405 "Method Not Allowed"
      else .exc 404 "Not Found"

/-- Dispatch of the routing result through Starlette's exception handling,
as described above: status-404 HTTPExceptions (from the router or from the
favicon handler alike) go to the registered `spa_fallback`; other
HTTPExceptions go to FastAPI's default JSON detail handler; a crash escapes
the handled pipeline. -/
def serveCore (fs : List String) (now1 now2 : DateTime) (req : Request) :
    Except Unit Response :=
  match routeHandler fs now1 now2 req with
  | .crash => .error ()
  | .resp r => .ok r
  | .exc 404 _ => .ok (spa_fallback fs req.path)
  | .exc s d => .ok ⟨s, [], .detailJson d, some "application/json"⟩

/-- `os.environ.get("ENV", "development").lower()` (app.py line 24);
lowercasing is modelled per character (`Char.toLower` covers the ASCII
range, which is what realistic ENV values use). -/
def envLower (env : Option String) : String :=
  String.mk ((env.getD "development").data.map Char.toLower)

/-- `DEBUG = ENV != "production"` (app.py line 25). -/
def debugOf (env : Option String) : Bool :=
  envLower env != "production"

/-- Starlette MutableHeaders assignment: replace any existing entry for the
key, otherwise append. -/
def setHeader (hs : List (String × String)) (k v : String) :
    List (String × String) :=
  hs.filter (fun kv => !(kv.1 == k)) ++ [(k, v)]

/-- Read a header value. -/
def hdrGet (hs : List (String × String)) (k : String) : Option String :=
  (hs.find? (fun kv => kv.1 == k)).map (fun kv => kv.2)

/-- The dev-only no-cache middleware (app.py lines 28-34): when DEBUG, stamp
the cache-disabling headers onto the response; otherwise pass it through
untouched. -/
def no_cache_middleware (debug : Bool) (r : Response) : Response :=
  if debug then
    { r with
        headers :=
          setHeader
            (setHeader r.headers "Cache-Control"
              "no-store, no-cache, must-revalidate, max-age=0")
            "Pragma" "no-cache" }
  else r

/-- The full per-request pipeline: routing and exception handling, then the
no-cache middleware (which, being user middleware, wraps every handled
response, exception-handler responses included).  An exception that escapes
the handlers is answered by the outermost ServerErrorMiddleware with a plain
500 — that path bypasses the user middleware.  The CORS middleware is not
modelled (no claim concerns it). -/
def serve (env : Option String) (fs : List String) (now1 now2 : DateTime)
    (req : Request) : Response :=
  match serveCore fs now1 now2 req with
  | .ok r => no_cache_middleware (debugOf env) r
  | .error _ => ⟨500, [], .plainText "Internal Server Error", some "text/plain"⟩

/-! ## Helper lemmas -/

/-- Inversion of a successful validation: each field validator succeeded
with the corresponding payload field. -/
lemma validateDonate_ok_inv (b : DonateBody) (p : DonatePayload)
    (h : validateDonate b = .ok p) :
    validateAmount b.amount = .ok p.amount ∧
    validateStr .name 200 b.name = .ok p.name ∧
    validateStr .message 500 b.message = .ok p.message := by
  cases ha : validateAmount b.amount with
  | error e => simp [validateDonate, ha] at h
  | ok a =>
    cases hn : validateStr .name 200 b.name with
    | error e => simp [validateDonate, ha, hn] at h
    | ok n =>
      cases hm : validateStr .message 500 b.message with
      | error e => simp [validateDonate, ha, hn, hm] at h
      | ok m =>
        simp only [validateDonate, ha, hn, hm, Except.ok.injEq] at h
        subst h
        exact ⟨rfl, rfl, rfl⟩

/-- The SPA fallback builds responses with no headers of its own. -/
lemma spa_fallback_headers (fs : List String) (path : String) :
    (spa_fallback fs path).headers = [] := by
  unfold spa_fallback
  dsimp only
  split
  · rfl
  · split <;> rfl

/-- A response returned (not raised) by the index handler has no headers. -/
lemma index_resp_headers (fs : List String) (r : Response)
    (h : index fs = .resp r) : r.headers = [] := by
  unfold index at h
  split at h
  · cases h
    rfl
  · cases h

/-- A response returned by the favicon handler has no headers. -/
lemma favicon_resp_headers (fs : List String) (r : Response)
    (h : favicon fs = .resp r) : r.headers = [] := by
  unfold favicon at h
  split at h
  · cases h
    rfl
  · cases h

/-- A response returned by the donate route has no headers. -/
lemma donate_resp_headers (b : DonateBody) (now1 now2 : DateTime)
    (r : Response) (h : donate b now1 now2 = .resp r) : r.headers = [] := by
  unfold donate at h
  cases hv : validateDonate b with
  | error es =>
    rw [hv] at h
    cases h
    rfl
  | ok p =>
    rw [hv] at h
    dsimp only at h
    split at h
    · cases h
      rfl
    · cases h

/-- A response returned by any route has no headers. -/
lemma routeHandler_resp_headers (fs : List String) (now1 now2 : DateTime)
    (req : Request) (r : Response)
    (h : routeHandler fs now1 now2 req = .resp r) : r.headers = [] := by
  unfold routeHandler at h
  split at h
  · exact index_resp_headers fs r h
  · exact favicon_resp_headers fs r h
  · exact donate_resp_headers req.body now1 now2 r h
  · split at h <;> cases h

/-- Every response the handled pipeline produces carries no headers of its
own (only the middleware adds headers). -/
lemma serveCore_headers (fs : List String) (now1 now2 : DateTime)
    (req : Request) (r : Response) (h : serveCore fs now1 now2 req = .ok r) :
    r.headers = [] := by
  unfold serveCore at h
  split at h
  · simp at h
  · rename_i rr heq
    simp only [Except.ok.injEq] at h
    subst h
    exact routeHandler_resp_headers fs now1 now2 req rr heq
  · simp only [Except.ok.injEq] at h
    rw [← h]
    exact spa_fallback_headers fs req.path
  · simp only [Except.ok.injEq] at h
    rw [← h]

/-! ## Claim theorems -/

/-- C1: the claim says a favicon miss is a direct 404 that never falls back
to the shell.  The code contradicts it: on GET /favicon.ico with
favicon.ico absent and index.html present, the HTTPException(404) raised by
the favicon handler is intercepted by the registered status-404 exception
handler, which finds no favicon.ico on disk and therefore serves the index
shell with status 200. -/
theorem C1_favicon_miss_serves_shell :
    serve (some "production") ["index.html"] ⟨1970, 1, 1, 0, 0, 0, 0⟩
      ⟨1970, 1, 1, 0, 0, 0, 0⟩ ⟨"GET", "/favicon.ico", ⟨none, none, none⟩⟩ =
    ⟨200, [], .fileOf "index.html", some "text/html"⟩ := by
  rfl

/-- C4: the SPA fallback strips the leading slash from the unmatched path;
if that path exists on disk it answers 404 with JSON detail "Not Found";
if not and the shell exists it serves the shell with 200; if the shell is
missing too it answers 500 with JSON detail "index.html not found". -/
theorem C4_spa_fallback_cases (fs : List String) (path : String) :
    (fs.contains (lstripSlash path) = true →
      spa_fallback fs path =
        ⟨404, [], .detailJson "Not Found", some "application/json"⟩) ∧
    (fs.contains (lstripSlash path) = false →
      fs.contains "index.html" = true →
      spa_fallback fs path =
        ⟨200, [], .fileOf "index.html", some "text/html"⟩) ∧
    (fs.contains (lstripSlash path) = false →
      fs.contains "index.html" = false →
      spa_fallback fs path =
        ⟨500, [], .detailJson "index.html not found", some "application/json"⟩) := by
  refine ⟨fun h1 => ?_, fun h1 h2 => ?_, fun h1 h2 => ?_⟩
  · simp at h1
    simp [spa_fallback, h1]
  · simp at h1 h2
    simp [spa_fallback, h1, h2]
  · simp at h1 h2
    simp [spa_fallback, h1, h2]

/-- C4 witness: the three branches at concrete inputs — an unmatched path
that exists on disk, an unknown route with the shell present, and an
unknown route with the shell missing. -/
theorem C4_spa_fallback_cases_witness :
    spa_fallback ["assets/app.js"] "/assets/app.js" =
      ⟨404, [], .detailJson "Not Found", some "application/json"⟩ ∧
    spa_fallback ["index.html"] "/some/unknown/route" =
      ⟨200, [], .fileOf "index.html", some "text/html"⟩ ∧
    spa_fallback [] "/some/unknown/route" =
      ⟨500, [], .detailJson "index.html not found", some "application/json"⟩ :=
  ⟨(C4_spa_fallback_cases ["assets/app.js"] "/assets/app.js").1 (by rfl),
   (C4_spa_fallback_cases ["index.html"] "/some/unknown/route").2.1
     (by rfl) (by rfl),
   (C4_spa_fallback_cases [] "/some/unknown/route").2.2 (by rfl) (by rfl)⟩

/-- C5 counterexample: the donate handler reads the clock once for the
receipt id and again for the timestamp.  With the first reading at 10.9s
and the second at 11.0s after the epoch, the receipt id encodes second 10
while the timestamp shows second 11 — there is no single clock value both
fields derive from. -/
theorem C5_two_clock_reads_cex :
    pyIntTimestamp ⟨1970, 1, 1, 0, 0, 10, 900000⟩ = 10 ∧
    pyIntTimestamp ⟨1970, 1, 1, 0, 0, 11, 0⟩ = 11 ∧
    (makeReceipt ⟨.finite 5, none, none⟩ ⟨1970, 1, 1, 0, 0, 10, 900000⟩
        ⟨1970, 1, 1, 0, 0, 11, 0⟩).receipt_id = "BF-10" ∧
    (makeReceipt ⟨.finite 5, none, none⟩ ⟨1970, 1, 1, 0, 0, 10, 900000⟩
        ⟨1970, 1, 1, 0, 0, 11, 0⟩).timestamp = "1970-01-01T00:00:11Z" :=
  ⟨rfl, rfl, rfl, rfl⟩

/-- C5 amended: the Receipt Generator is a pure function of the validated
request and the TWO clock readings the handler performs — equal inputs give
identical receipts — and the second encoded in receipt_id agrees with the
timestamp's reading exactly when the two readings fall in the same Unix
second. -/
theorem C5_amended_two_read_determinism (p p' : DonatePayload)
    (n1 n2 n1' n2' : DateTime) (hp : p = p') (h1 : n1 = n1') (h2 : n2 = n2') :
    makeReceipt p n1 n2 = makeReceipt p' n1' n2' ∧
    (pyIntTimestamp n1 = pyIntTimestamp n2 →
      (makeReceipt p n1 n2).receipt_id =
        "BF-" ++ toString (pyIntTimestamp n2)) := by
  subst hp h1 h2
  refine ⟨rfl, fun h => ?_⟩
  simp [makeReceipt, h]

/-- C5 amended witness: with both readings inside the same second, the
receipt id encodes the timestamp reading's second. -/
theorem C5_amended_witness :
    (makeReceipt ⟨.finite 5, none, none⟩ ⟨1970, 1, 1, 0, 0, 10, 0⟩
        ⟨1970, 1, 1, 0, 0, 10, 500000⟩).receipt_id =
      "BF-" ++ toString (pyIntTimestamp ⟨1970, 1, 1, 0, 0, 10, 500000⟩) :=
  (C5_amended_two_read_determinism ⟨.finite 5, none, none⟩
    ⟨.finite 5, none, none⟩ ⟨1970, 1, 1, 0, 0, 10, 0⟩
    ⟨1970, 1, 1, 0, 0, 10, 500000⟩ ⟨1970, 1, 1, 0, 0, 10, 0⟩
    ⟨1970, 1, 1, 0, 0, 10, 500000⟩ rfl rfl rfl).2 (by rfl)

set_option maxRecDepth 8000 in
/-- C6 counterexample: a body violating two rules at once (amount ≤ 0 and
name longer than 200) yields an error naming BOTH violated rules — pydantic
collects all field errors instead of stopping at the first. -/
theorem C6_reports_both_errors_cex :
    validateDonate ⟨some (.vint (-5)),
        some (.vstr (String.mk (List.replicate 201 'a'))), none⟩ =
      .error [⟨.amount, .valueError "amount must be greater than zero"⟩,
        ⟨.name, .tooLong 200⟩] := by
  rfl

/-- C6 amended: the field rules are applied per field in declaration order
(amount, then name, then message) and validation does not stop at the first
violation: every failing field contributes its error, and the reported list
is ordered by field declaration order.  With amount and name failing and
message passing, the error list is exactly the amount error followed by the
name error. -/
theorem C6_amended_collects_in_field_order (b : DonateBody) (e1 e2 : ValErr)
    (m : Option String) (ha : validateAmount b.amount = .error e1)
    (hn : validateStr .name 200 b.name = .error e2)
    (hm : validateStr .message 500 b.message = .ok m) :
    validateDonate b = .error [e1, e2] := by
  simp [validateDonate, ha, hn, hm, errsOf]

set_option maxRecDepth 8000 in
/-- C6 amended witness: the two-violation body is reported with the amount
error first and the name error second. -/
theorem C6_amended_witness :
    validateDonate ⟨some (.vint (-5)),
        some (.vstr (String.mk (List.replicate 201 'a'))), none⟩ =
      .error [⟨.amount, .valueError "amount must be greater than zero"⟩,
        ⟨.name, .tooLong 200⟩] :=
  C6_amended_collects_in_field_order
    ⟨some (.vint (-5)), some (.vstr (String.mk (List.replicate 201 'a'))), none⟩
    ⟨.amount, .valueError "amount must be greater than zero"⟩
    ⟨.name, .tooLong 200⟩ none (by rfl) (by rfl) (by rfl)

/-- C9: a name or message that is present but the empty string is defaulted
exactly like an absent one, because the handler's `or` tests falsiness; an
empty string is accepted by validation as the value `some ""`. -/
theorem C9_empty_string_defaults (p : DonatePayload) (n1 n2 : DateTime) :
    (p.name = some "" → (makeReceipt p n1 n2).name = "Anonymous") ∧
    (p.message = some "" → (makeReceipt p n1 n2).message = "") ∧
    validateStr .name 200 (some (.vstr "")) = .ok (some "") ∧
    validateStr .message 500 (some (.vstr "")) = .ok (some "") := by
  refine ⟨fun h => ?_, fun h => ?_, rfl, rfl⟩ <;>
    simp [makeReceipt, pyOrStr, h]

/-- C9 witness: a payload carrying empty-string name and message yields the
"Anonymous" / "" defaults. -/
theorem C9_empty_string_defaults_witness :
    (makeReceipt ⟨.finite 5, some "", some ""⟩ ⟨1970, 1, 1, 0, 0, 0, 0⟩
        ⟨1970, 1, 1, 0, 0, 0, 0⟩).name = "Anonymous" ∧
    (makeReceipt ⟨.finite 5, some "", some ""⟩ ⟨1970, 1, 1, 0, 0, 0, 0⟩
        ⟨1970, 1, 1, 0, 0, 0, 0⟩).message = "" :=
  ⟨(C9_empty_string_defaults ⟨.finite 5, some "", some ""⟩
      ⟨1970, 1, 1, 0, 0, 0, 0⟩ ⟨1970, 1, 1, 0, 0, 0, 0⟩).1 rfl,
   (C9_empty_string_defaults ⟨.finite 5, some "", some ""⟩
      ⟨1970, 1, 1, 0, 0, 0, 0⟩ ⟨1970, 1, 1, 0, 0, 0, 0⟩).2.1 rfl⟩

/-- C2: a body whose amount is present and coerces to a float ≤ 0 is
rejected: validation fails with an error carrying the message "amount must
be greater than zero", and the donate route answers with the 422 validation
response — no receipt fields appear and the Receipt Generator is never
reached. -/
theorem C2_nonpositive_amount_rejected (env : Option String)
    (fs : List String) (n1 n2 : DateTime) (b : DonateBody) (v : JVal)
    (f : PyFloat) (hv : b.amount = some v) (hc : coerceFloat v = .ok f)
    (hle : pyLe f (.finite 0) = true) :
    ∃ es, validateDonate b = .error es ∧
      (⟨.amount, .valueError "amount must be greater than zero"⟩ : ValErr) ∈ es ∧
      serve env fs n1 n2 ⟨"POST", "/donate", b⟩ =
        no_cache_middleware (debugOf env)
          ⟨422, [], .validationJson es, some "application/json"⟩ := by
  have ha : validateAmount b.amount =
      .error ⟨.amount, .valueError "amount must be greater than zero"⟩ := by
    rw [hv]
    simp [validateAmount, hc, hle]
  have hvd : validateDonate b =
      .error (errsOf (validateAmount b.amount) ++
        errsOf (validateStr .name 200 b.name) ++
        errsOf (validateStr .message 500 b.message)) := by
    cases hn : validateStr .name 200 b.name <;>
      cases hm : validateStr .message 500 b.message <;>
        simp [validateDonate, ha, hn, hm]
  refine ⟨_, hvd, by simp [ha, errsOf], ?_⟩
  have hroute : routeHandler fs n1 n2 ⟨"POST", "/donate", b⟩ =
      donate b n1 n2 := rfl
  have hdon : donate b n1 n2 =
      .resp ⟨422, [],
        .validationJson (errsOf (validateAmount b.amount) ++
          errsOf (validateStr .name 200 b.name) ++
          errsOf (validateStr .message 500 b.message)),
        some "application/json"⟩ := by
    unfold donate
    rw [hvd]
  have hsc : serveCore fs n1 n2 ⟨"POST", "/donate", b⟩ =
      .ok ⟨422, [],
        .validationJson (errsOf (validateAmount b.amount) ++
          errsOf (validateStr .name 200 b.name) ++
          errsOf (validateStr .message 500 b.message)),
        some "application/json"⟩ := by
    unfold serveCore
    rw [hroute, hdon]
  unfold serve
  rw [hsc]

/-- C2 witness: the body with amount -5 is rejected with the positivity
message and the 422 validation response. -/
theorem C2_nonpositive_amount_rejected_witness :
    ∃ es, validateDonate ⟨some (.vint (-5)), none, none⟩ = .error es ∧
      (⟨.amount, .valueError "amount must be greater than zero"⟩ : ValErr) ∈ es ∧
      serve none [] ⟨1970, 1, 1, 0, 0, 0, 0⟩ ⟨1970, 1, 1, 0, 0, 0, 0⟩
          ⟨"POST", "/donate", ⟨some (.vint (-5)), none, none⟩⟩ =
        no_cache_middleware (debugOf none)
          ⟨422, [], .validationJson es, some "application/json"⟩ :=
  C2_nonpositive_amount_rejected none [] ⟨1970, 1, 1, 0, 0, 0, 0⟩
    ⟨1970, 1, 1, 0, 0, 0, 0⟩ ⟨some (.vint (-5)), none, none⟩ (.vint (-5))
    (.finite (-5)) rfl (by rfl) (by rfl)

/-- C3: a valid donation (validation succeeded, finite positive amount)
yields a 200 receipt with status "ok", receipt_id built as "BF-" plus the
integer Unix second of the first clock reading, timestamp the ISO-8601
rendering of the second clock reading with a trailing "Z", the amount
echoed exactly, and "Anonymous" / "" defaults for absent name / message. -/
theorem C3_valid_donation_receipt (env : Option String) (fs : List String)
    (n1 n2 : DateTime) (b : DonateBody) (p : DonatePayload) (q : ℚ)
    (hv : validateDonate b = .ok p) (hq : p.amount = .finite q) :
    serve env fs n1 n2 ⟨"POST", "/donate", b⟩ =
      no_cache_middleware (debugOf env)
        ⟨200, [], .receiptJson (makeReceipt p n1 n2), some "application/json"⟩ ∧
    (makeReceipt p n1 n2).status = "ok" ∧
    (makeReceipt p n1 n2).receipt_id = "BF-" ++ toString (pyIntTimestamp n1) ∧
    (makeReceipt p n1 n2).timestamp = pyIsoformat n2 ++ "Z" ∧
    (makeReceipt p n1 n2).amount = p.amount ∧
    (b.name = none → (makeReceipt p n1 n2).name = "Anonymous") ∧
    (b.message = none → (makeReceipt p n1 n2).message = "") := by
  obtain ⟨ha, hn, hm⟩ := validateDonate_ok_inv b p hv
  have hfin : (makeReceipt p n1 n2).amount.isFinite = true := by
    simp [makeReceipt, hq, PyFloat.isFinite]
  have hroute : routeHandler fs n1 n2 ⟨"POST", "/donate", b⟩ =
      donate b n1 n2 := rfl
  have hdon : donate b n1 n2 =
      .resp ⟨200, [], .receiptJson (makeReceipt p n1 n2),
        some "application/json"⟩ := by
    unfold donate
    rw [hv]
    simp [hfin]
  have hsc : serveCore fs n1 n2 ⟨"POST", "/donate", b⟩ =
      .ok ⟨200, [], .receiptJson (makeReceipt p n1 n2),
        some "application/json"⟩ := by
    unfold serveCore
    rw [hroute, hdon]
  refine ⟨?_, rfl, rfl, rfl, rfl, fun h => ?_, fun h => ?_⟩
  · unfold serve
    rw [hsc]
  · rw [h] at hn
    simp only [validateStr, Except.ok.injEq] at hn
    simp [makeReceipt, pyOrStr, ← hn]
  · rw [h] at hm
    simp only [validateStr, Except.ok.injEq] at hm
    simp [makeReceipt, pyOrStr, ← hm]

/-- C3 witness: amount 50 with name "Ada" and no message, at a concrete
clock. -/
theorem C3_valid_donation_receipt_witness :
    serve none ["index.html"] ⟨1970, 1, 1, 0, 0, 0, 0⟩ ⟨1970, 1, 1, 0, 0, 0, 0⟩
      ⟨"POST", "/donate", ⟨some (.vint 50), some (.vstr "Ada"), none⟩⟩ =
      no_cache_middleware (debugOf none)
        ⟨200, [],
          .receiptJson (makeReceipt ⟨.finite 50, some "Ada", none⟩
            ⟨1970, 1, 1, 0, 0, 0, 0⟩ ⟨1970, 1, 1, 0, 0, 0, 0⟩),
          some "application/json"⟩ ∧
    (makeReceipt ⟨.finite 50, some "Ada", none⟩ ⟨1970, 1, 1, 0, 0, 0, 0⟩
        ⟨1970, 1, 1, 0, 0, 0, 0⟩).status = "ok" ∧
    (makeReceipt ⟨.finite 50, some "Ada", none⟩ ⟨1970, 1, 1, 0, 0, 0, 0⟩
        ⟨1970, 1, 1, 0, 0, 0, 0⟩).receipt_id =
      "BF-" ++ toString (pyIntTimestamp ⟨1970, 1, 1, 0, 0, 0, 0⟩) ∧
    (makeReceipt ⟨.finite 50, some "Ada", none⟩ ⟨1970, 1, 1, 0, 0, 0, 0⟩
        ⟨1970, 1, 1, 0, 0, 0, 0⟩).timestamp =
      pyIsoformat ⟨1970, 1, 1, 0, 0, 0, 0⟩ ++ "Z" ∧
    (makeReceipt ⟨.finite 50, some "Ada", none⟩ ⟨1970, 1, 1, 0, 0, 0, 0⟩
        ⟨1970, 1, 1, 0, 0, 0, 0⟩).amount =
      (⟨.finite 50, some "Ada", none⟩ : DonatePayload).amount ∧
    ((⟨some (.vint 50), some (.vstr "Ada"), none⟩ : DonateBody).name = none →
      (makeReceipt ⟨.finite 50, some "Ada", none⟩ ⟨1970, 1, 1, 0, 0, 0, 0⟩
        ⟨1970, 1, 1, 0, 0, 0, 0⟩).name = "Anonymous") ∧
    ((⟨some (.vint 50), some (.vstr "Ada"), none⟩ : DonateBody).message = none →
      (makeReceipt ⟨.finite 50, some "Ada", none⟩ ⟨1970, 1, 1, 0, 0, 0, 0⟩
        ⟨1970, 1, 1, 0, 0, 0, 0⟩).message = "") :=
  C3_valid_donation_receipt none ["index.html"] ⟨1970, 1, 1, 0, 0, 0, 0⟩
    ⟨1970, 1, 1, 0, 0, 0, 0⟩ ⟨some (.vint 50), some (.vstr "Ada"), none⟩
    ⟨.finite 50, some "Ada", none⟩ 50 (by rfl) rfl

/-- C7 counterexample: the claim says a NaN or infinite amount fails with a
validation error; in fact NaN and +inf PASS validation, because the
validator only rejects `v <= 0` and both comparisons are false. -/
theorem C7_nonfinite_passes_validation_cex :
    validateDonate ⟨some (.vfloat .nan), none, none⟩ =
      .ok ⟨.nan, none, none⟩ ∧
    validateDonate ⟨some (.vfloat .inf), none, none⟩ =
      .ok ⟨.inf, none, none⟩ :=
  ⟨rfl, rfl⟩

/-- C7 amended: a payload that validates with a non-finite amount (NaN or
+inf) reaches the Receipt Generator and then fails JSON serialization, so
the server answers the plain 500 of ServerErrorMiddleware — not a
validation error; only -inf is caught by validation, with the positivity
message. -/
theorem C7_nonfinite_amount_crashes (env : Option String)
    (fs : List String) (n1 n2 : DateTime) (b : DonateBody)
    (p : DonatePayload) (hv : validateDonate b = .ok p)
    (hnf : p.amount.isFinite = false) :
    serve env fs n1 n2 ⟨"POST", "/donate", b⟩ =
      ⟨500, [], .plainText "Internal Server Error", some "text/plain"⟩ ∧
    (∀ b2 : DonateBody, b2.amount = some (.vfloat .ninf) →
      ∃ es, validateDonate b2 = .error es ∧
        (⟨.amount, .valueError "amount must be greater than zero"⟩ : ValErr) ∈ es) := by
  constructor
  · have hfin : (makeReceipt p n1 n2).amount.isFinite = false := by
      simp [makeReceipt, hnf]
    have hroute : routeHandler fs n1 n2 ⟨"POST", "/donate", b⟩ =
        donate b n1 n2 := rfl
    have hdon : donate b n1 n2 = .crash := by
      unfold donate
      rw [hv]
      simp [hfin]
    have hsc : serveCore fs n1 n2 ⟨"POST", "/donate", b⟩ = .error () := by
      unfold serveCore
      rw [hroute, hdon]
    unfold serve
    rw [hsc]
  · intro b2 h2
    have ha : validateAmount b2.amount =
        .error ⟨.amount, .valueError "amount must be greater than zero"⟩ := by
      rw [h2]
      rfl
    refine ⟨errsOf (validateAmount b2.amount) ++
      errsOf (validateStr .name 200 b2.name) ++
      errsOf (validateStr .message 500 b2.message), ?_, ?_⟩
    · cases hn : validateStr .name 200 b2.name <;>
        cases hm : validateStr .message 500 b2.message <;>
          simp [validateDonate, ha, hn, hm]
    · simp [ha, errsOf]

/-- C7 amended witness: a NaN amount validates, then the server answers the
plain 500 (the shell being present makes no difference). -/
theorem C7_nonfinite_amount_crashes_witness :
    serve none ["index.html"] ⟨1970, 1, 1, 0, 0, 0, 0⟩ ⟨1970, 1, 1, 0, 0, 0, 0⟩
      ⟨"POST", "/donate", ⟨some (.vfloat .nan), none, none⟩⟩ =
    ⟨500, [], .plainText "Internal Server Error", some "text/plain"⟩ :=
  (C7_nonfinite_amount_crashes none ["index.html"] ⟨1970, 1, 1, 0, 0, 0, 0⟩
    ⟨1970, 1, 1, 0, 0, 0, 0⟩ ⟨some (.vfloat .nan), none, none⟩
    ⟨.nan, none, none⟩ (by rfl) rfl).1

/-- C8: with ENV anything but "production" case-insensitively (including
unset, which defaults to "development"), every response of the handled
pipeline carries the two cache-disabling headers; with ENV "production" the
middleware is an identity passthrough; in both modes status and body are
untouched. -/
theorem C8_no_cache_headers (env : Option String) (fs : List String)
    (n1 n2 : DateTime) (req : Request) (r : Response)
    (hok : serveCore fs n1 n2 req = .ok r) :
    (debugOf env = true →
      hdrGet (serve env fs n1 n2 req).headers "Cache-Control" =
        some "no-store, no-cache, must-revalidate, max-age=0" ∧
      hdrGet (serve env fs n1 n2 req).headers "Pragma" = some "no-cache") ∧
    (debugOf env = false → serve env fs n1 n2 req = r) ∧
    (serve env fs n1 n2 req).status = r.status ∧
    (serve env fs n1 n2 req).body = r.body ∧
    debugOf none = true ∧
    (∀ s, debugOf (some s) = false ↔ envLower (some s) = "production") := by
  have hserve : serve env fs n1 n2 req = no_cache_middleware (debugOf env) r := by
    unfold serve
    rw [hok]
  have hhead := serveCore_headers fs n1 n2 req r hok
  rw [hserve]
  refine ⟨fun hd => ?_, fun hd => ?_, ?_, ?_, rfl, fun s => ?_⟩
  · rw [hd]
    simp only [no_cache_middleware, if_true, hhead]
    exact ⟨rfl, rfl⟩
  · rw [hd]
    rfl
  · cases debugOf env <;> rfl
  · cases debugOf env <;> rfl
  · simp [debugOf]

/-- C8 witness: with ENV unset the headers are stamped on a fallback 404
response; with ENV=production the same response passes through unchanged. -/
theorem C8_no_cache_headers_witness :
    (hdrGet (serve none ["x"] ⟨1970, 1, 1, 0, 0, 0, 0⟩ ⟨1970, 1, 1, 0, 0, 0, 0⟩
        ⟨"GET", "/x", ⟨none, none, none⟩⟩).headers "Cache-Control" =
      some "no-store, no-cache, must-revalidate, max-age=0" ∧
     hdrGet (serve none ["x"] ⟨1970, 1, 1, 0, 0, 0, 0⟩ ⟨1970, 1, 1, 0, 0, 0, 0⟩
        ⟨"GET", "/x", ⟨none, none, none⟩⟩).headers "Pragma" =
      some "no-cache") ∧
    serve (some "Production") ["x"] ⟨1970, 1, 1, 0, 0, 0, 0⟩
        ⟨1970, 1, 1, 0, 0, 0, 0⟩ ⟨"GET", "/x", ⟨none, none, none⟩⟩ =
      ⟨404, [], .detailJson "Not Found", some "application/json"⟩ :=
  ⟨(C8_no_cache_headers none ["x"] ⟨1970, 1, 1, 0, 0, 0, 0⟩
      ⟨1970, 1, 1, 0, 0, 0, 0⟩ ⟨"GET", "/x", ⟨none, none, none⟩⟩
      ⟨404, [], .detailJson "Not Found", some "application/json"⟩
      (by rfl)).1 rfl,
   (C8_no_cache_headers (some "Production") ["x"] ⟨1970, 1, 1, 0, 0, 0, 0⟩
      ⟨1970, 1, 1, 0, 0, 0, 0⟩ ⟨"GET", "/x", ⟨none, none, none⟩⟩
      ⟨404, [], .detailJson "Not Found", some "application/json"⟩
      (by rfl)).2.1 rfl⟩

/-- C10: the amount is coerced to float before being echoed: a JSON integer
amount produces the numerically equal float value in the payload and in the
receipt (a value of the float kind, not the integer sent), and a numeric
string accepted by the float coercion is treated as its numeric value. -/
theorem C10_amount_float_coercion (b : DonateBody) (p : DonatePayload)
    (z : ℤ) (n1 n2 : DateTime) (hv : validateDonate b = .ok p) :
    (b.amount = some (.vint z) →
      p.amount = .finite (z : ℚ) ∧
      (makeReceipt p n1 n2).amount = .finite (z : ℚ) ∧
      JVal.vfloat (.finite (z : ℚ)) ≠ JVal.vint z) ∧
    (∀ s x, b.amount = some (.vstr s) → parsePyFloat s = some x →
      p.amount = x ∧ (makeReceipt p n1 n2).amount = x) := by
  obtain ⟨ha, hn, hm⟩ := validateDonate_ok_inv b p hv
  constructor
  · intro h
    rw [h] at ha
    simp only [validateAmount, coerceFloat] at ha
    split at ha
    · cases ha
    · simp only [Except.ok.injEq] at ha
      exact ⟨ha.symm, ha.symm, by simp⟩
  · intro s x hs hx
    rw [hs] at ha
    simp only [validateAmount, coerceFloat, hx] at ha
    split at ha
    · cases ha
    · simp only [Except.ok.injEq] at ha
      exact ⟨ha.symm, ha.symm⟩

/-- C10 witness: the integer amount 50 becomes the float value 50 in the
payload and the receipt, and that float-kind JSON value differs from the
integer-kind one sent. -/
theorem C10_amount_float_coercion_witness :
    (⟨.finite 50, none, none⟩ : DonatePayload).amount =
      .finite ((50 : ℤ) : ℚ) ∧
    (makeReceipt ⟨.finite 50, none, none⟩ ⟨1970, 1, 1, 0, 0, 0, 0⟩
        ⟨1970, 1, 1, 0, 0, 0, 0⟩).amount = .finite ((50 : ℤ) : ℚ) ∧
    JVal.vfloat (.finite ((50 : ℤ) : ℚ)) ≠ JVal.vint 50 :=
  (C10_amount_float_coercion ⟨some (.vint 50), none, none⟩
    ⟨.finite 50, none, none⟩ 50 ⟨1970, 1, 1, 0, 0, 0, 0⟩
    ⟨1970, 1, 1, 0, 0, 0, 0⟩ (by rfl)).1 rfl

end BrightFutures
